import Mathlib

/-!
Shallow embedding of the core logic of the chatgpt-obsidian-plugin repository
(current sources: `main.js`, v2 plugin region; auxiliary test sources under
`tests/` and `unnamed/`), together with theorems checking the repository's
natural-language specification against the code.

The embedding models:
* the Q&A pair identity and state store (`generateQAPairId`,
  `generateQAPairHash`, `getQAPairState`, `updateQAPairState`,
  `getConversationProcessingStatus`, `loadConversationMetadata`,
  `saveConversationMetadata`),
* the conversation thread extractor (`extractConversations`),
* the collision-safe name allocation loop and the save flow (`saveNote`),
* the Obsidian vault surface actually used by that code (existence lookup,
  create, adapter read/write, folder creation), with fault injection mirroring
  the mocked failures in the repository's own test suite.

JavaScript strings are modelled as Lean `String`s (sequences of code points;
UTF-16 surrogate pairs are not distinguished), JavaScript numbers used as
integers are modelled as `Int`/`Nat` with explicit 32-bit wrapping where the
source relies on bitwise coercion, and file contents are modelled at the JSON
parse level: a vault file holds either a JSON value or unparseable text.
-/

namespace ChatGPTPlugin

/-! ## JavaScript string primitives used by the source -/

/-- JS `s.substring(a, b)` on code points: clamps both indices to
`[0, length]`, swaps them when `a > b`. -/
def jsSubstring (s : String) (a b : Int) : String :=
  let len : Int := s.data.length
  let a' := min (max a 0) len
  let b' := min (max b 0) len
  let lo := (min a' b').toNat
  let hi := (max a' b').toNat
  ⟨(s.data.take hi).drop lo⟩

/-- JS `s.substring(a)` (to the end of the string). -/
def jsSubstringFrom (s : String) (a : Int) : String :=
  jsSubstring s a s.data.length

/-- JS `s.lastIndexOf(c)` for a single character: index of the last
occurrence, `-1` when absent. -/
def jsLastIndexOf (s : String) (c : Char) : Int :=
  match s.data.reverse.findIdx? (· = c) with
  | some i => (s.data.length : Int) - 1 - i
  | none => -1

/-- JS `n.toString(36)` digit for a value below 36. -/
def base36Digit (n : Nat) : Char :=
  if n < 10 then Char.ofNat (48 + n) else Char.ofNat (87 + n)

/-- JS `n.toString(36)` for a natural number, fuelled so that it reduces by
plain computation (a fuel of `n + 1` always suffices, since the value shrinks
by a factor of 36 per digit). -/
def toBase36Go : Nat → Nat → String
  | 0, _ => ""
  | fuel + 1, n =>
      if n < 36 then String.singleton (base36Digit n)
      else toBase36Go fuel (n / 36) ++ String.singleton (base36Digit (n % 36))

/-- JS `n.toString(36)` for a natural number. -/
def toBase36 (n : Nat) : String := toBase36Go (n + 1) n

/-- Wrap an integer to a 32-bit signed value, as JS bitwise operators do. -/
def toInt32 (n : Int) : Int :=
  (n + 2 ^ 31) % 2 ^ 32 - 2 ^ 31

/-! ## Insertion-ordered string-keyed maps (JS object semantics)

The source stores the pair map and the vault entries in plain JS objects;
`obj[k] = v` replaces the value in place when the key is present and appends
the key otherwise, and `Object.values` iterates in insertion order. -/

/-- Lookup in an insertion-ordered association list (JS `obj[k]`). -/
def objGet {α : Type} : List (String × α) → String → Option α
  | [], _ => none
  | (k', v) :: rest, k => if k' = k then some v else objGet rest k

/-- Update/insert in an insertion-ordered association list (JS `obj[k] = v`):
replaces the first binding of the key in place, else appends. -/
def objSet {α : Type} : List (String × α) → String → α → List (String × α)
  | [], k, v => [(k, v)]
  | (k', v') :: rest, k, v =>
      if k' = k then (k, v) :: rest else (k', v') :: objSet rest k v

/-! ## JSON values (parse-level model of file contents) -/

/-- A JSON value. File contents are modelled at the parse level: a vault file
whose text is valid JSON is represented by the `Json` value `JSON.parse`
would yield, so `JSON.stringify` followed by `JSON.parse` is the identity on
this representation (as it is on the JSON texts the plugin itself writes). -/
inductive Json where
  | null : Json
  | bool (b : Bool) : Json
  | num (n : Int) : Json
  | str (s : String) : Json
  | arr (elems : List Json) : Json
  | obj (fields : List (String × Json)) : Json

/-- JS field access `j.k` on a parsed JSON value (defined only on objects;
on every other value the access yields `undefined`, modelled as `none`). -/
def Json.getField : Json → String → Option Json
  | .obj fields, k => objGet fields k
  | _, _ => none

/-- JS truthiness of a parsed JSON value (`if (data.conversations)`): `null`,
`false`, `0` and `""` are falsy; every object and array is truthy. -/
def Json.truthy : Json → Bool
  | .null => false
  | .bool b => b
  | .num n => n != 0
  | .str s => s != ""
  | .arr _ => true
  | .obj _ => true

/-- Truthiness of a JS field access result (`undefined` is falsy). -/
def jsFieldTruthy (j : Json) (k : String) : Bool :=
  match j.getField k with
  | some v => v.truthy
  | none => false

/-! ## Vault (document store) model

The plugin touches the Obsidian vault only through: `getAbstractFileByPath`
(existence lookup), `vault.create` (fails when the entry exists),
`vault.createFolder`, `vault.adapter.read` (fails when absent) and
`vault.adapter.write` (overwrite). The repository's tests inject failures by
mocking `create`/`modify`/`write` to reject; the model mirrors this with
explicit fault-injection lists. -/

/-- Content of a vault file: either text that parses as JSON (represented by
the parsed value) or text on which `JSON.parse` throws. -/
inductive FileData where
  | json (j : Json) : FileData
  | notJson (raw : String) : FileData

/-- The vault: existing entries (files with contents; folders hold `folder`)
in creation order, plus injected faults mirroring the test suite's mocks:
`create` rejects on paths in `createFailures`, `adapter.write` rejects on
paths in `adapterWriteFailures`. -/
structure Vault where
  entries : List (String × FileData)
  createFailures : List String
  adapterWriteFailures : List String

/-- Marker content for a folder entry. -/
def folderData : FileData := .notJson ""

/-- `app.vault.getAbstractFileByPath(p)`: the entry or `null`. -/
def Vault.getAbstractFileByPath (v : Vault) (p : String) : Option FileData :=
  objGet v.entries p

/-- `app.vault.adapter.read(p)`: the file's content, rejecting when absent. -/
def Vault.adapterRead (v : Vault) (p : String) : Except String FileData :=
  match objGet v.entries p with
  | some c => .ok c
  | none => .error ("ENOENT: " ++ p)

/-- `app.vault.create(p, c)`: rejects when the entry already exists or when
a failure is injected for the path; otherwise appends the new entry. -/
def Vault.create (v : Vault) (p : String) (c : FileData) : Except String Vault :=
  if p ∈ v.createFailures then .error ("File already exists: " ++ p)
  else if (objGet v.entries p).isSome then .error ("File already exists: " ++ p)
  else .ok { v with entries := v.entries ++ [(p, c)] }

/-- `app.vault.adapter.write(p, c)`: overwrite (creating when absent),
rejecting when a failure is injected for the path. -/
def Vault.adapterWrite (v : Vault) (p : String) (c : FileData) : Except String Vault :=
  if p ∈ v.adapterWriteFailures then .error ("write failed: " ++ p)
  else .ok { v with entries := objSet v.entries p c }

/-- `app.vault.createFolder(p)`. -/
def Vault.createFolder (v : Vault) (p : String) : Vault :=
  { v with entries := objSet v.entries p folderData }

/-! ## Q&A pair data model (`main.js`, v2 plugin region) -/

/-- `QAPairState` enum: `'new' | 'saved' | 'ignored'`. -/
inductive QAPairState where
  | NEW : QAPairState
  | SAVED : QAPairState
  | IGNORED : QAPairState
deriving DecidableEq, Repr

/-- The serialized string of a `QAPairState` enum value. -/
def QAPairState.toJsonString : QAPairState → String
  | .NEW => "new"
  | .SAVED => "saved"
  | .IGNORED => "ignored"

/-- Reading a `QAPairState` back from its serialized string. -/
def QAPairState.ofJsonString (s : String) : QAPairState :=
  if s = "saved" then .SAVED else if s = "ignored" then .IGNORED else .NEW

/-- `ConversationProcessingStatus` enum. -/
inductive ConversationProcessingStatus where
  | UNPROCESSED : ConversationProcessingStatus
  | PARTIAL : ConversationProcessingStatus
  | PROCESSED : ConversationProcessingStatus
deriving DecidableEq, Repr

/-- `QAPairMetadata` record stored per pair. -/
structure QAPairMetadata where
  pairId : String
  pairHash : String
  conversationId : String
  state : QAPairState
  timestamp : Nat
  userPrompt : String
  responsePreview : String
deriving DecidableEq, Repr

/-- `QAPairMetadataStore`: the singleton persisted store,
`{ qaPairs: {pairId → QAPairMetadata}, lastUpdated }`. -/
structure QAPairMetadataStore where
  qaPairs : List (String × QAPairMetadata)
  lastUpdated : Nat
deriving DecidableEq, Repr

/-- `METADATA_FILE_NAME` constant. -/
def METADATA_FILE_NAME : String := ".chatgpt-plugin-metadata.json"

/-- A fresh store `{ qaPairs: {}, lastUpdated: Date.now() }`. -/
def emptyStore (now : Nat) : QAPairMetadataStore :=
  { qaPairs := [], lastUpdated := now }

/-! ## Serialization of the store (JSON.stringify / dynamic load) -/

/-- `JSON.stringify` image of one `QAPairMetadata` record. -/
def encodePair (m : QAPairMetadata) : Json :=
  .obj [("pairId", .str m.pairId),
        ("pairHash", .str m.pairHash),
        ("conversationId", .str m.conversationId),
        ("state", .str m.state.toJsonString),
        ("timestamp", .num m.timestamp),
        ("userPrompt", .str m.userPrompt),
        ("responsePreview", .str m.responsePreview)]

/-- `JSON.stringify` image of the whole store. -/
def encodeStore (s : QAPairMetadataStore) : Json :=
  .obj [("qaPairs", .obj (s.qaPairs.map (fun p => (p.1, encodePair p.2)))),
        ("lastUpdated", .num s.lastUpdated)]

/-- Reading a string field of a parsed JSON object, defaulting to `""`. -/
def jsonStrField (j : Json) (k : String) : String :=
  match j.getField k with
  | some (.str s) => s
  | _ => ""

/-- Reading a numeric field of a parsed JSON object, defaulting to `0`. -/
def jsonNatField (j : Json) (k : String) : Nat :=
  match j.getField k with
  | some (.num n) => n.toNat
  | _ => 0

/-- Reconstructing one `QAPairMetadata` record from its parsed JSON value
(models the dynamic assignment `this.metadataStore = data`, which adopts the
parsed object wholesale). -/
def decodePair (j : Json) : QAPairMetadata :=
  { pairId := jsonStrField j "pairId",
    pairHash := jsonStrField j "pairHash",
    conversationId := jsonStrField j "conversationId",
    state := QAPairState.ofJsonString (jsonStrField j "state"),
    timestamp := jsonNatField j "timestamp",
    userPrompt := jsonStrField j "userPrompt",
    responsePreview := jsonStrField j "responsePreview" }

/-- Reconstructing the whole store from its parsed JSON value. -/
def decodeStore (j : Json) : QAPairMetadataStore :=
  { qaPairs :=
      match j.getField "qaPairs" with
      | some (.obj fields) => fields.map (fun p => (p.1, decodePair p.2))
      | _ => [],
    lastUpdated := jsonNatField j "lastUpdated" }

/-! ## Pair identity, hash and state (`main.js`) -/

/-- Hex digit (lowercase) — also the `toString(36)` digit table below 16. -/
def hexDigit (n : Nat) : Char := base36Digit n

/-- `JSON.stringify` escaping of one character inside a string literal. -/
def jsonEscapeChar (c : Char) : List Char :=
  if c = '"' then ['\\', '"']
  else if c = '\\' then ['\\', '\\']
  else if c = '\n' then ['\\', 'n']
  else if c = '\r' then ['\\', 'r']
  else if c = '\t' then ['\\', 't']
  else if c = Char.ofNat 8 then ['\\', 'b']
  else if c = Char.ofNat 12 then ['\\', 'f']
  else if c.toNat < 32 then
    ['\\', 'u', '0', '0', hexDigit (c.toNat / 16), hexDigit (c.toNat % 16)]
  else [c]

/-- `JSON.stringify` image of a string (quoted, escaped). -/
def jsonQuote (s : String) : String :=
  "\"" ++ ⟨(s.data.map jsonEscapeChar).flatten⟩ ++ "\""

/-- `generateQAPairHash(userPrompt, response)`: hashes
`JSON.stringify({userPrompt: userPrompt.substring(0,200), response:
response.substring(0,200)})` with the classic shift-and-subtract 32-bit hash
(`hash = ((hash << 5) - hash) + char; hash = hash & hash`), then renders
`Math.abs(hash).toString(36)`. -/
def generateQAPairHash (userPrompt response : String) : String :=
  let content := "\x7b\"userPrompt\":" ++ jsonQuote (jsSubstring userPrompt 0 200)
      ++ ",\"response\":" ++ jsonQuote (jsSubstring response 0 200) ++ "\x7d"
  let hash := content.data.foldl
    (fun hash c => toInt32 (toInt32 (hash * 32) - hash + (c.toNat : Int))) 0
  toBase36 hash.natAbs

/-- `generateQAPairId(conversationId, userMsgId, assistantMsgId)`:
direct concatenation with `_` separators. -/
def generateQAPairId (conversationId userMsgId assistantMsgId : String) : String :=
  conversationId ++ "_" ++ userMsgId ++ "_" ++ assistantMsgId

/-- `getQAPairState(pairId)`: the stored state, `NEW` when absent. -/
def getQAPairState (store : QAPairMetadataStore) (pairId : String) : QAPairState :=
  match objGet store.qaPairs pairId with
  | some metadata => metadata.state
  | none => QAPairState.NEW

/-! ## Persistence of the store (`main.js`) -/

/-- `saveConversationMetadata()`: stamps `lastUpdated`, serializes the store,
then (1) probes existence by reading; (2) if present, writes via the adapter;
(3) else tries `vault.create`, falling back to an adapter write, and rethrows
the create error when both fail. Returns the (always already mutated)
in-memory store, the possibly-updated vault, and the outcome. -/
def saveConversationMetadata (store : QAPairMetadataStore) (vault : Vault)
    (now : Nat) : QAPairMetadataStore × Vault × Except String Unit :=
  let store := { store with lastUpdated := now }
  let content := FileData.json (encodeStore store)
  match vault.adapterRead METADATA_FILE_NAME with
  | .ok _ =>
    match vault.adapterWrite METADATA_FILE_NAME content with
    | .ok v => (store, v, .ok ())
    | .error e => (store, vault, .error e)
  | .error _ =>
    match vault.create METADATA_FILE_NAME content with
    | .ok v => (store, v, .ok ())
    | .error createError =>
      match vault.adapterWrite METADATA_FILE_NAME content with
      | .ok v => (store, v, .ok ())
      | .error _ => (store, vault, .error createError)

/-- The record literal `updateQAPairState` assigns into the store (`pairId`,
content hash, conversation id, state, `timestamp` stamp, previews truncated
to 100 characters). -/
def qaPairEntry (pairId : String) (state : QAPairState) (conversationId : String)
    (userPrompt response : String) (now : Nat) : QAPairMetadata :=
  { pairId := pairId
    pairHash := generateQAPairHash userPrompt response
    conversationId := conversationId
    state := state
    timestamp := now
    userPrompt := jsSubstring userPrompt 0 100
    responsePreview := jsSubstring response 0 100 }

/-- `updateQAPairState(pairId, state, conversationId, userPrompt, response)`:
upserts the full record (previews truncated to 100 characters, `timestamp`
stamped) into the in-memory store, then persists the whole store. The upsert
is not rolled back when persistence fails. -/
def updateQAPairState (store : QAPairMetadataStore) (vault : Vault)
    (pairId : String) (state : QAPairState) (conversationId : String)
    (userPrompt response : String) (now : Nat) :
    QAPairMetadataStore × Vault × Except String Unit :=
  let entry := qaPairEntry pairId state conversationId userPrompt response now
  let store := { store with qaPairs := objSet store.qaPairs pairId entry }
  saveConversationMetadata store vault now

/-- `loadConversationMetadata()` as implemented in `main.js`: reads the
metadata file via the adapter; a missing file resets to an empty store; the
parsed value is dispatched on `conversations` (legacy, discarded) and
`qaPairs` (adopted); any other shape resets. The enclosing `try/catch`
catches every error — including the `JSON.parse` failure on a corrupt file —
and resets to an empty store, so this function never surfaces an error. -/
def loadConversationMetadata (vault : Vault) (now : Nat) : QAPairMetadataStore :=
  match vault.adapterRead METADATA_FILE_NAME with
  | .error _ => emptyStore now
  | .ok content =>
    match content with
    | .notJson _ => emptyStore now
    | .json data =>
      if jsFieldTruthy data "conversations" then emptyStore now
      else if jsFieldTruthy data "qaPairs" then decodeStore data
      else emptyStore now

/-- `loadConversationMetadata()` as implemented by the repository's own test
double (`tests/qa-pairs.test.ts`, `TestChatGPTPlugin`): no `try/catch`, so a
present-but-unparseable file rejects (the `JSON.parse` error propagates),
while a missing file yields an empty store. -/
def testImplLoadConversationMetadata (vault : Vault) (now : Nat) :
    Except String QAPairMetadataStore :=
  match vault.getAbstractFileByPath METADATA_FILE_NAME with
  | none => .ok (emptyStore now)
  | some content =>
    match content with
    | .notJson _ => .error "SyntaxError: Unexpected token in JSON"
    | .json data =>
      if jsFieldTruthy data "qaPairs" then .ok (decodeStore data)
      else .ok (emptyStore now)

/-! ## Conversation status (`main.js`) -/

/-- `getConversationProcessingStatus(conversationId, totalAssistantMessages?)`
exactly as in the source; the arithmetic on a known total is carried out on
JS numbers, modelled as `Int`. -/
def getConversationProcessingStatus (store : QAPairMetadataStore)
    (conversationId : String) (totalAssistantMessages : Option Int) :
    ConversationProcessingStatus :=
  let pairs := (store.qaPairs.map Prod.snd).filter
    (fun pair => pair.conversationId == conversationId)
  match totalAssistantMessages with
  | none =>
    if pairs.length = 0 then ConversationProcessingStatus.UNPROCESSED
    else
      let newCount := (pairs.filter (fun p => p.state == QAPairState.NEW)).length
      if newCount = 0 then ConversationProcessingStatus.PROCESSED
      else ConversationProcessingStatus.PARTIAL
  | some total =>
    let processedPairs : Int := (pairs.filter (fun p => p.state != QAPairState.NEW)).length
    let newPairs : Int := (pairs.filter (fun p => p.state == QAPairState.NEW)).length
    let unprocessedPairs : Int := total - pairs.length
    let totalNewPairs := newPairs + unprocessedPairs
    if totalNewPairs = 0 then ConversationProcessingStatus.PROCESSED
    else if processedPairs > 0 then ConversationProcessingStatus.PARTIAL
    else ConversationProcessingStatus.UNPROCESSED

/-- The status formula exactly as the specification words it (§4.2, known
total): `recorded` = pairs for this conversation, `processed` = recorded
pairs not in NEW, `newRecorded` = recorded pairs in NEW, `unrecorded` =
`totalAssistantMessageCount - recorded.length`, `totalNew = newRecorded +
unrecorded`; PROCESSED if `totalNew == 0`, else PARTIAL if `processed > 0`,
else UNPROCESSED. -/
def specConversationStatus (store : QAPairMetadataStore)
    (conversationId : String) (totalAssistantMessageCount : Int) :
    ConversationProcessingStatus :=
  let recorded := (store.qaPairs.map Prod.snd).filter
    (fun pair => pair.conversationId == conversationId)
  let processed : Int := (recorded.filter (fun p => p.state != QAPairState.NEW)).length
  let newRecorded : Int := (recorded.filter (fun p => p.state == QAPairState.NEW)).length
  let unrecorded : Int := totalAssistantMessageCount - recorded.length
  let totalNew := newRecorded + unrecorded
  if totalNew = 0 then ConversationProcessingStatus.PROCESSED
  else if processed > 0 then ConversationProcessingStatus.PARTIAL
  else ConversationProcessingStatus.UNPROCESSED

/-! ## Thread extractor (`extractConversations`, `main.js`) -/

/-- `message.author` of an export message. -/
structure AuthorInfo where
  role : String
deriving DecidableEq, Repr

/-- `message.content` of an export message (`parts` may be absent). -/
structure ContentInfo where
  parts : Option (List String)
deriving DecidableEq, Repr

/-- The `message` payload of a mapping node. -/
structure MessageData where
  author : AuthorInfo
  content : ContentInfo
  create_time : Option Nat
deriving DecidableEq, Repr

/-- One node of the `mapping` tree: `{id, message, parent, children}`;
`message` may be null (tombstoned node). -/
structure MappingNode where
  id : String
  message : Option MessageData
  parent : Option String
  children : List String
deriving DecidableEq, Repr

/-- A conversation from `conversations.json`. -/
structure ChatGPTConversation where
  id : String
  title : String
  create_time : Nat
  update_time : Nat
  mapping : List (String × MappingNode)
deriving Repr

/-- One entry of the extracted linear thread. -/
structure ExtractedMessage where
  role : String
  content : String
  timestamp : Nat
  id : String
deriving DecidableEq, Repr

/-- The extracted form of one conversation. -/
structure ExtractedConversation where
  title : String
  id : String
  create_time : Nat
  update_time : Nat
  messages : List ExtractedMessage
deriving DecidableEq, Repr

/-- The start-node predicate of the extractor's `find`: the message is
present with role `user`, the parent id is truthy (a non-empty string), and
the parent's message has role `system`. -/
def isStartNode (mapping : List (String × MappingNode)) (node : MappingNode) : Bool :=
  match node.message, node.parent with
  | some msg, some parent =>
      msg.author.role == "user" && parent != "" &&
      (match objGet mapping parent with
       | some parentNode =>
         match parentNode.message with
         | some parentMsg => parentMsg.author.role == "system"
         | none => false
       | none => false)
  | _, _ => false

/-- `Object.values(mapping).find(...)`: the first matching node in insertion
order. -/
def findStart (mapping : List (String × MappingNode)) : Option MappingNode :=
  (mapping.map Prod.snd).find? (isStartNode mapping)

/-- Advance of the walk: `current.children.length > 0 ?
mapping[current.children[0]] : null` (an unknown child id yields `null`). -/
def nextNode (mapping : List (String × MappingNode)) (current : MappingNode) :
    Option MappingNode :=
  match current.children with
  | [] => none
  | c :: _ => objGet mapping c

/-- The messages the loop body pushes for one node: nothing for a tombstoned
or `system` node, nothing when the joined parts trim to the empty string,
else one entry `{role, content (parts joined with newline), timestamp
(create_time or 0), id}`. -/
def emitNode (current : MappingNode) : List ExtractedMessage :=
  match current.message with
  | none => []
  | some msg =>
    if msg.author.role != "system" then
      let content :=
        match msg.content.parts with
        | some parts => String.intercalate "\n" parts
        | none => ""
      if content.trim != "" then
        [{ role := msg.author.role, content := content,
           timestamp := msg.create_time.getD 0, id := current.id }]
      else []
    else []

/-- The extractor's walk, fuelled: the source's `while (current)` loop has no
cycle protection, so the embedding bounds it with explicit fuel; on an
acyclic mapping any fuel of at least the path length gives the loop's exact
output. -/
def walkThread (mapping : List (String × MappingNode)) :
    Nat → Option MappingNode → List ExtractedMessage
  | 0, _ => []
  | _, none => []
  | fuel + 1, some current =>
      emitNode current ++ walkThread mapping fuel (nextNode mapping current)

/-- The node-id path obtained from a start node by repeatedly taking the
first child (the specification's primary branch), fuelled like the walk. -/
def firstChildPath (mapping : List (String × MappingNode)) :
    Nat → Option MappingNode → List String
  | 0, _ => []
  | _, none => []
  | fuel + 1, some current =>
      current.id :: firstChildPath mapping fuel (nextNode mapping current)

/-- `extractConversations` restricted to one conversation. -/
def extractConversation (fuel : Nat) (conv : ChatGPTConversation) :
    ExtractedConversation :=
  { title := conv.title, id := conv.id, create_time := conv.create_time,
    update_time := conv.update_time,
    messages := walkThread conv.mapping fuel (findStart conv.mapping) }

/-- `extractConversations(conversations)`: maps the extraction over the
parsed export. -/
def extractConversations (fuel : Nat) (conversations : List ChatGPTConversation) :
    List ExtractedConversation :=
  conversations.map (extractConversation fuel)

/-! ## Name allocation and the save flow (`saveNote`, `main.js` v2) -/

/-- The characters the title sanitizer replaces: `\ / : * ? " < > |`. -/
def isForbiddenChar (c : Char) : Bool :=
  c = '\\' || c = '/' || c = ':' || c = '*' || c = '?' ||
  c = '"' || c = '<' || c = '>' || c = '|'

/-- `title.replace(/[\\/:*?"<>|]/g, '-')`: one-to-one character
substitution. -/
def sanitizeTitle (title : String) : String :=
  ⟨title.data.map (fun c => if isForbiddenChar c then '-' else c)⟩

/-- The `{directory-prefix, base-name, extension}` decomposition the source
performs (identically in the collision loop and in the create-failure
fallback): directory up to and including the last `/`, extension from the
last `.` of the remainder. -/
def decomposePath (basePath : String) : String × String × String :=
  let lastSlashIndex := jsLastIndexOf basePath '/'
  let dir := if lastSlashIndex ≥ 0 then jsSubstring basePath 0 (lastSlashIndex + 1) else ""
  let nameWithExt :=
    if lastSlashIndex ≥ 0 then jsSubstringFrom basePath (lastSlashIndex + 1) else basePath
  let lastDotIndex := jsLastIndexOf nameWithExt '.'
  let name := if lastDotIndex ≥ 0 then jsSubstring nameWithExt 0 lastDotIndex else nameWithExt
  let ext := if lastDotIndex ≥ 0 then jsSubstringFrom nameWithExt lastDotIndex else ""
  (dir, name, ext)

/-- The retry candidate the collision loop derives from the **original**
pre-loop candidate: `dir ++ name ++ " (" ++ counter ++ ")" ++ ext`. -/
def nextCandidate (basePath : String) (counter : Nat) : String :=
  let (dir, name, ext) := decomposePath basePath
  dir ++ name ++ " (" ++ toString counter ++ ")" ++ ext

/-- The timestamp-suffixed path the create-failure fallback derives from the
original candidate: `dir ++ name ++ "-" ++ Date.now() ++ ext`. -/
def timestampFallbackPath (basePath : String) (now : Nat) : String :=
  let (dir, name, ext) := decomposePath basePath
  dir ++ name ++ "-" ++ toString now ++ ext

/-- `maxRetries = 100`. -/
def MAX_RETRIES : Nat := 100

/-- The "too many collisions" error text of `saveNote`. -/
def tooManyDuplicatesError : String :=
  "Too many duplicate files. Unable to create unique filename after " ++
    toString MAX_RETRIES ++ " attempts."

/-- The collision loop of `saveNote` (`while getAbstractFileByPath(finalPath)`):
each retry re-derives the candidate from the original `basePath` with the
incremented counter, and the loop throws once the counter would exceed
`maxRetries`. The loop is genuinely bounded by the counter check; the extra
`gas` argument (maintained as `MAX_RETRIES + 1 - counter`, so it never
reaches the dead `0` branch) only makes the recursion structural, keeping
the definition computable by plain reduction. -/
def findUniquePathGo (vault : Vault) (basePath : String) :
    String → Nat → Nat → Except String String
  | _, _, 0 => .error tooManyDuplicatesError
  | finalPath, counter, gas + 1 =>
    if (vault.getAbstractFileByPath finalPath).isSome then
      let next := nextCandidate basePath counter
      if counter + 1 > MAX_RETRIES then .error tooManyDuplicatesError
      else findUniquePathGo vault basePath next (counter + 1) gas
    else .ok finalPath

/-- Entry into the collision loop: `finalPath` starts as the candidate path
itself and `counter` starts at 1 (so the gas is `MAX_RETRIES`). -/
def findUniquePath (vault : Vault) (filePath : String) : Except String String :=
  findUniquePathGo vault filePath filePath 1 MAX_RETRIES

/-- The candidate sequence of the collision loop, all re-derived from the
original pre-loop candidate: `candidatePath base 0 = base` and
`candidatePath base i = dir ++ name ++ " (" ++ i ++ ")" ++ ext` for
`i ≥ 1`. -/
def candidatePath (basePath : String) : Nat → String
  | 0 => basePath
  | i + 1 => nextCandidate basePath (i + 1)

/-! ## Note serializer (`generateNoteContent`, `main.js` v2) -/

/-- Zero-padding to two digits. -/
def pad2 (n : Nat) : String := if n < 10 then "0" ++ toString n else toString n

/-- Zero-padding to four digits. -/
def pad4 (n : Nat) : String :=
  if n < 10 then "000" ++ toString n
  else if n < 100 then "00" ++ toString n
  else if n < 1000 then "0" ++ toString n
  else toString n

/-- Civil (proleptic Gregorian) date from a day count since 1970-01-01. -/
def civilFromDays (days : Nat) : Nat × Nat × Nat :=
  let z := days + 719468
  let era := z / 146097
  let doe := z % 146097
  let yoe := (doe - doe / 1460 + doe / 36524 - doe / 146096) / 365
  let y := yoe + era * 400
  let doy := doe - (365 * yoe + yoe / 4 - yoe / 100)
  let mp := (5 * doy + 2) / 153
  let d := doy - (153 * mp + 2) / 5 + 1
  let m := if mp < 10 then mp + 3 else mp - 9
  (if m ≤ 2 then y + 1 else y, m, d)

/-- The date part of `new Date(seconds * 1000).toISOString()`
(`YYYY-MM-DD`). -/
def isoDateOfEpochSeconds (seconds : Nat) : String :=
  let days := seconds / 86400
  let ymd := civilFromDays days
  pad4 ymd.1 ++ "-" ++ pad2 ymd.2.1 ++ "-" ++ pad2 ymd.2.2

/-- `convertToMarkdown`: each of the source's regex replacements rewrites its
match to exactly itself (`/\*\*(.*?)\*\*/g → '**$1**'` and so on), so the
function is the identity on its input. -/
def convertToMarkdown (content : String) : String := content

/-- The plugin settings consumed by the save flow. -/
structure ChatGPTSettings where
  defaultFolder : String
  includeUserPrompts : Bool
  includeTimestamps : Bool
  defaultTags : String
deriving DecidableEq, Repr

/-- `generateNoteContent(title, tags)` of the v2 `SaveNoteModal`: YAML
frontmatter (title, optional tag array, optional created/source/conversation
lines), an optional `## User Prompt` section for the user message directly
preceding the response in the extracted thread, and the `## Response`
section. -/
def generateNoteContent (settings : ChatGPTSettings)
    (conversation : ExtractedConversation) (message : ExtractedMessage)
    (title tags : String) : String :=
  let tagArray := ((tags.split (· = ',')).map String.trim).filter (fun t => t != "")
  let timestamp := isoDateOfEpochSeconds message.timestamp
  let content := "---\n"
  let content := content ++ "title: \"" ++ title ++ "\"\n"
  let content := content ++
    (if tagArray.length > 0 then
      "tags: [" ++ String.intercalate ", " (tagArray.map (fun t => "\"" ++ t ++ "\"")) ++ "]\n"
    else "")
  let content := content ++
    (if settings.includeTimestamps then
      "created: " ++ timestamp ++ "\n" ++ "source: ChatGPT\n" ++
        "conversation: \"" ++ conversation.title ++ "\"\n"
    else "")
  let content := content ++ "---\n\n"
  let content := content ++
    (if settings.includeUserPrompts then
      match conversation.messages.findIdx? (fun msg => msg.id == message.id) with
      | some messageIndex =>
        if messageIndex > 0 then
          match conversation.messages[messageIndex - 1]? with
          | some userMessage =>
            if userMessage.role == "user" then
              "## User Prompt\n\n" ++ convertToMarkdown userMessage.content ++ "\n\n"
            else ""
          | none => ""
        else ""
      | none => ""
    else "")
  content ++ "## Response\n\n" ++ convertToMarkdown message.content

/-! ## The save flow (`saveNote`, `main.js` v2) -/

/-- The fields of `SaveNoteModal` the save flow reads or writes. -/
structure SaveNoteModalState where
  saveInProgress : Bool
  conversation : ExtractedConversation
  message : ExtractedMessage
  userMessage : Option ExtractedMessage
  pairId : Option String
deriving Repr

/-- The visible effect of one `saveNote` call: the modal (with its
`saveInProgress` flag), the vault, the in-memory pair store, the
`createdFilePath` local of the source, and the call's outcome. -/
structure SaveNoteResult where
  modal : SaveNoteModalState
  vault : Vault
  store : QAPairMetadataStore
  createdFilePath : Option String
  outcome : Except String Unit

/-- The tail of `saveNote` after a successful create: when a truthy `pairId`
is present, transitions the pair to SAVED via `updateQAPairState`, swallowing
a metadata persistence error (the save is still considered successful); then
the `finally` block releases the guard. -/
def saveNoteFinish (modal : SaveNoteModalState) (vault : Vault)
    (store : QAPairMetadataStore) (createdFilePath : String) (now : Nat) :
    SaveNoteResult :=
  match modal.pairId with
  | some pid =>
    if pid != "" then
      let userPrompt := match modal.userMessage with
        | some um => um.content
        | none => ""
      match updateQAPairState store vault pid QAPairState.SAVED
          modal.conversation.id userPrompt modal.message.content now with
      | (store', vault', _) =>
        ⟨{ modal with saveInProgress := false }, vault', store',
          some createdFilePath, .ok ()⟩
    else
      ⟨{ modal with saveInProgress := false }, vault, store,
        some createdFilePath, .ok ()⟩
  | none =>
    ⟨{ modal with saveInProgress := false }, vault, store,
      some createdFilePath, .ok ()⟩

/-- `saveNote(title, folder, tags)` of the v2 `SaveNoteModal`: rejects
immediately when a save is already in progress; otherwise sets the guard,
renders the note, ensures the folder, sanitizes the title, runs the bounded
collision loop, creates the file (retrying exactly once at a
timestamp-suffixed fallback path and rethrowing the original create error
when both creates fail), updates the pair state, and releases the guard in
the `finally` block on every completed path. -/
def saveNote (modal : SaveNoteModalState) (vault : Vault)
    (store : QAPairMetadataStore) (settings : ChatGPTSettings) (now : Nat)
    (title folder tags : String) : SaveNoteResult :=
  if modal.saveInProgress then
    ⟨modal, vault, store, none, .error "Save operation already in progress"⟩
  else
    let modal := { modal with saveInProgress := true }
    let content := generateNoteContent settings modal.conversation modal.message title tags
    let folderPath := folder.trim
    let vault :=
      if folderPath ≠ "" ∧ (vault.getAbstractFileByPath folderPath).isNone then
        vault.createFolder folderPath
      else vault
    let safeTitle := sanitizeTitle title
    let filePath :=
      if folderPath ≠ "" then folderPath ++ "/" ++ safeTitle ++ ".md"
      else safeTitle ++ ".md"
    match findUniquePath vault filePath with
    | .error e => ⟨{ modal with saveInProgress := false }, vault, store, none, .error e⟩
    | .ok finalPath =>
      match vault.create finalPath (FileData.notJson content) with
      | .ok vault' => saveNoteFinish modal vault' store finalPath now
      | .error createError =>
        let fallbackPath := timestampFallbackPath filePath now
        match vault.create fallbackPath (FileData.notJson content) with
        | .ok vault' => saveNoteFinish modal vault' store fallbackPath now
        | .error _ =>
          ⟨{ modal with saveInProgress := false }, vault, store, none,
            .error createError⟩

/-! ## Concrete sample inputs used by witnesses -/

/-- A sample export mapping with a `system` root, a `user` start node with
two children (a primary branch `a1` and a sibling branch `a2`). -/
def sampleMapping : List (String × MappingNode) :=
  [("root",
    { id := "root",
      message := some { author := { role := "system" },
                        content := { parts := some [""] },
                        create_time := none },
      parent := none,
      children := ["u1"] }),
   ("u1",
    { id := "u1",
      message := some { author := { role := "user" },
                        content := { parts := some ["question"] },
                        create_time := some 1 },
      parent := some "root",
      children := ["a1", "a2"] }),
   ("a1",
    { id := "a1",
      message := some { author := { role := "assistant" },
                        content := { parts := some ["primary answer"] },
                        create_time := some 2 },
      parent := some "u1",
      children := [] }),
   ("a2",
    { id := "a2",
      message := some { author := { role := "assistant" },
                        content := { parts := some ["sibling answer"] },
                        create_time := some 3 },
      parent := some "u1",
      children := [] })]

/-- A sample conversation over `sampleMapping`. -/
def sampleConversation : ChatGPTConversation :=
  { id := "c1", title := "t", create_time := 0, update_time := 0,
    mapping := sampleMapping }

/-- The primary-branch assistant message the extractor emits from
`sampleConversation`. -/
def samplePrimaryMessage : ExtractedMessage :=
  { role := "assistant", content := "primary answer", timestamp := 2, id := "a1" }

/-- Sample plugin settings (all note-content options off). -/
def sampleSettings : ChatGPTSettings :=
  { defaultFolder := "", includeUserPrompts := false,
    includeTimestamps := false, defaultTags := "" }

/-- A sample modal with no save in flight. -/
def sampleIdleModal : SaveNoteModalState :=
  { saveInProgress := false,
    conversation := { title := "t", id := "c1", create_time := 0,
                      update_time := 0, messages := [] },
    message := { role := "assistant", content := "hello", timestamp := 0, id := "m1" },
    userMessage := none,
    pairId := none }

/-- A sample modal whose previous save has not yet completed. -/
def sampleBusyModal : SaveNoteModalState :=
  { sampleIdleModal with saveInProgress := true }

/-! ## Helper lemmas -/

lemma objGet_objSet_self {α : Type} (m : List (String × α)) (k : String) (v : α) :
    objGet (objSet m k v) k = some v := by
  induction m with
  | nil => simp [objSet, objGet]
  | cons hd tl ih =>
    by_cases h : hd.1 = k
    · simp [objSet, h, objGet]
    · simp [objSet, h, objGet, ih]

lemma objGet_objSet_other {α : Type} (m : List (String × α)) (k q : String) (v : α)
    (h : q ≠ k) : objGet (objSet m k v) q = objGet m q := by
  induction m with
  | nil => simp [objSet, objGet, Ne.symm h]
  | cons hd tl ih =>
    by_cases hk : hd.1 = k
    · subst hk
      simp [objSet, objGet, Ne.symm h]
    · simp only [objSet, if_neg hk]
      by_cases hq : hd.1 = q
      · simp [objGet, hq]
      · simp [objGet, hq, ih]

lemma objGet_append_of_none {α : Type} (m : List (String × α)) (k : String) (v : α)
    (h : objGet m k = none) : objGet (m ++ [(k, v)]) k = some v := by
  induction m with
  | nil => simp [objGet]
  | cons hd tl ih =>
    by_cases hk : hd.1 = k
    · simp [objGet, hk] at h
    · simp only [objGet, if_neg hk] at h
      simpa [objGet, hk] using ih h

lemma string_data_append (s t : String) : (s ++ t).data = s.data ++ t.data := by
  cases s; cases t; rfl

/-- Splitting a concatenation at a separator character that occurs in neither
left part is unambiguous. -/
lemma append_cons_sep_inj {c : Char} :
    ∀ {a₁ a₂ b₁ b₂ : List Char}, c ∉ a₁ → c ∉ a₂ →
      a₁ ++ c :: b₁ = a₂ ++ c :: b₂ → a₁ = a₂ ∧ b₁ = b₂ := by
  intro a₁
  induction a₁ with
  | nil =>
    intro a₂ b₁ b₂ _ h₂ heq
    cases a₂ with
    | nil => simpa using heq
    | cons x a₂ =>
      simp only [List.nil_append, List.cons_append, List.cons.injEq] at heq
      exact absurd (heq.1 ▸ List.mem_cons_self x a₂) (heq.1 ▸ h₂)
  | cons x a₁ ih =>
    intro a₂ b₁ b₂ h₁ h₂ heq
    cases a₂ with
    | nil =>
      simp only [List.cons_append, List.nil_append, List.cons.injEq] at heq
      exact absurd (heq.1 ▸ List.mem_cons_self x a₁) fun hm => h₁ (heq.1 ▸ hm)
    | cons y a₂ =>
      simp only [List.cons_append, List.cons.injEq] at heq
      have h₁' : c ∉ a₁ := fun hm => h₁ (List.mem_cons_of_mem x hm)
      have h₂' : c ∉ a₂ := fun hm => h₂ (List.mem_cons_of_mem y hm)
      obtain ⟨ha, hb⟩ := ih h₁' h₂' heq.2
      exact ⟨by rw [heq.1, ha], hb⟩

lemma state_roundtrip (st : QAPairState) :
    QAPairState.ofJsonString st.toJsonString = st := by
  cases st <;> rfl

lemma decodePair_encodePair (m : QAPairMetadata) : decodePair (encodePair m) = m := by
  cases m with
  | mk pairId pairHash conversationId state timestamp userPrompt responsePreview =>
    cases state <;> rfl

lemma decodeStore_encodeStore (s : QAPairMetadataStore) :
    decodeStore (encodeStore s) = s := by
  cases s with
  | mk qaPairs lastUpdated =>
    simp [decodeStore, encodeStore, Json.getField, objGet, jsonNatField,
      List.map_map, Function.comp_def, decodePair_encodePair]

/-! ## Claim C2 -/

/-- C2: for every conversation id and every known total assistant-message
count `T`, `getConversationProcessingStatus(conversationId, T)` satisfies
exactly the specification's status formula (`recorded` / `processed` /
`newRecorded` / `totalNew = newRecorded + (T - |recorded|)`; PROCESSED iff
`totalNew == 0`, else PARTIAL iff `processed > 0`, else UNPROCESSED). -/
theorem conversationStatus_matches_spec_formula (store : QAPairMetadataStore)
    (conversationId : String) (T : Int) :
    getConversationProcessingStatus store conversationId (some T) =
      specConversationStatus store conversationId T := rfl

/-! ## Claim C1 -/

/-- C1: the claimed asymmetry fails on the code. A missing metadata file does
reset the store to empty without error, but a present-but-unparseable file is
NOT surfaced as a failure by `main.js`: the enclosing `catch` silently resets
the store to empty as well, while the repository's own test-double
implementation (asserted on by `tests/qa-pairs.test.ts`) rejects on the same
input. -/
theorem loadMetadata_corrupt_file_silently_resets :
    loadConversationMetadata
        { entries := [(METADATA_FILE_NAME, FileData.notJson "invalid json\x7b")],
          createFailures := [], adapterWriteFailures := [] } 1000
      = emptyStore 1000 ∧
    testImplLoadConversationMetadata
        { entries := [(METADATA_FILE_NAME, FileData.notJson "invalid json\x7b")],
          createFailures := [], adapterWriteFailures := [] } 1000
      = .error "SyntaxError: Unexpected token in JSON" ∧
    loadConversationMetadata
        { entries := [], createFailures := [], adapterWriteFailures := [] } 1000
      = emptyStore 1000 :=
  ⟨rfl, rfl, rfl⟩

/-! ## Claim C6 -/

/-- C6: `generateQAPairId` is deterministic (the same triple always yields
the same string) and, provided no component contains the separator `_`,
injective: two triples differing in any component yield different ids. -/
theorem generateQAPairId_deterministic_injective
    (c u a c' u' a' : String)
    (hc : '_' ∉ c.data) (hu : '_' ∉ u.data) (ha : '_' ∉ a.data)
    (hc' : '_' ∉ c'.data) (hu' : '_' ∉ u'.data) (ha' : '_' ∉ a'.data) :
    generateQAPairId c u a = generateQAPairId c u a ∧
    ((c, u, a) ≠ (c', u', a') →
      generateQAPairId c u a ≠ generateQAPairId c' u' a') := by
  refine ⟨rfl, fun hne heq => hne ?_⟩
  have hdata : c.data ++ '_' :: (u.data ++ '_' :: a.data) =
      c'.data ++ '_' :: (u'.data ++ '_' :: a'.data) := by
    have h := congrArg String.data heq
    simpa [generateQAPairId, string_data_append, show ("_" : String).data = ['_'] from rfl]
      using h
  obtain ⟨h1, h2⟩ := append_cons_sep_inj hc hc' hdata
  obtain ⟨h3, h4⟩ := append_cons_sep_inj hu hu' h2
  have ec : c = c' := by cases c; cases c'; exact congrArg String.mk h1
  have eu : u = u' := by cases u; cases u'; exact congrArg String.mk h3
  have ea : a = a' := by cases a; cases a'; exact congrArg String.mk h4
  rw [ec, eu, ea]

/-- C6 witness: concrete instantiation of the injectivity at two triples
differing in the assistant-message id. -/
theorem generateQAPairId_deterministic_injective_witness :
    ('_' ∉ "conv1".data ∧ '_' ∉ "user1".data ∧ '_' ∉ "assistant1".data ∧
      '_' ∉ "assistant2".data ∧ ("conv1", "user1", "assistant1") ≠ ("conv1", "user1", "assistant2")) ∧
    generateQAPairId "conv1" "user1" "assistant1" ≠
      generateQAPairId "conv1" "user1" "assistant2" :=
  ⟨by decide,
    (generateQAPairId_deterministic_injective "conv1" "user1" "assistant1"
      "conv1" "user1" "assistant2" (by decide) (by decide) (by decide)
      (by decide) (by decide) (by decide)).2 (by decide)⟩

/-! ## Claim C3 -/

/-- C3: when persisting the store fails (here: both the create and the
adapter write of the metadata file are failing), `updateQAPairState`
surfaces the persistence failure to the caller, yet the in-memory mutation
is not rolled back — `getQAPairState` on the result still returns the new
state — and the vault is unchanged. -/
theorem updateQAPairState_failure_surfaced_not_rolled_back
    (store : QAPairMetadataStore) (vault : Vault) (pairId : String)
    (state : QAPairState) (conversationId userPrompt response : String) (now : Nat)
    (hcf : METADATA_FILE_NAME ∈ vault.createFailures)
    (hwf : METADATA_FILE_NAME ∈ vault.adapterWriteFailures) :
    (∃ e, (updateQAPairState store vault pairId state conversationId
        userPrompt response now).2.2 = Except.error e) ∧
    getQAPairState (updateQAPairState store vault pairId state conversationId
        userPrompt response now).1 pairId = state ∧
    (updateQAPairState store vault pairId state conversationId
        userPrompt response now).2.1 = vault := by
  unfold updateQAPairState saveConversationMetadata
  simp only [Vault.adapterRead, Vault.adapterWrite, Vault.create]
  cases hmeta : objGet vault.entries METADATA_FILE_NAME with
  | some c => simp [hmeta, hwf, getQAPairState, objGet_objSet_self, qaPairEntry]
  | none => simp [hmeta, hcf, hwf, getQAPairState, objGet_objSet_self, qaPairEntry]

/-- C3 witness: a concrete store update against a vault whose metadata
create and write are both failing. -/
theorem updateQAPairState_failure_witness :
    (METADATA_FILE_NAME ∈
        (Vault.mk [] [METADATA_FILE_NAME] [METADATA_FILE_NAME]).createFailures ∧
      METADATA_FILE_NAME ∈
        (Vault.mk [] [METADATA_FILE_NAME] [METADATA_FILE_NAME]).adapterWriteFailures) ∧
    ((∃ e, (updateQAPairState (emptyStore 0)
        (Vault.mk [] [METADATA_FILE_NAME] [METADATA_FILE_NAME]) "p1"
        QAPairState.SAVED "c1" "hello" "world" 5).2.2 = Except.error e) ∧
      getQAPairState (updateQAPairState (emptyStore 0)
        (Vault.mk [] [METADATA_FILE_NAME] [METADATA_FILE_NAME]) "p1"
        QAPairState.SAVED "c1" "hello" "world" 5).1 "p1" = QAPairState.SAVED ∧
      (updateQAPairState (emptyStore 0)
        (Vault.mk [] [METADATA_FILE_NAME] [METADATA_FILE_NAME]) "p1"
        QAPairState.SAVED "c1" "hello" "world" 5).2.1 =
        Vault.mk [] [METADATA_FILE_NAME] [METADATA_FILE_NAME]) :=
  ⟨by decide,
    updateQAPairState_failure_surfaced_not_rolled_back (emptyStore 0)
      (Vault.mk [] [METADATA_FILE_NAME] [METADATA_FILE_NAME]) "p1"
      QAPairState.SAVED "c1" "hello" "world" 5 (by decide) (by decide)⟩

/-! ## Claim C4 -/

lemma emitNode_id (cur : MappingNode) (m : ExtractedMessage)
    (h : m ∈ emitNode cur) : m.id = cur.id := by
  simp only [emitNode] at h
  split at h
  · simp at h
  · split at h
    · split at h
      · rw [List.mem_singleton] at h; rw [h]
      · simp at h
    · simp at h

lemma walkThread_none (mapping : List (String × MappingNode)) (fuel : Nat) :
    walkThread mapping fuel none = [] := by
  cases fuel <;> rfl

lemma walk_mem_firstChildPath (mapping : List (String × MappingNode)) :
    ∀ (fuel : Nat) (start : Option MappingNode) (m : ExtractedMessage),
      m ∈ walkThread mapping fuel start → m.id ∈ firstChildPath mapping fuel start := by
  intro fuel
  induction fuel with
  | zero => intro start m h; simp [walkThread] at h
  | succ n ih =>
    intro start m h
    cases start with
    | none => simp [walkThread] at h
    | some cur =>
      simp only [walkThread] at h
      rw [List.mem_append] at h
      simp only [firstChildPath, List.mem_cons]
      cases h with
      | inl h => exact Or.inl (emitNode_id cur m h)
      | inr h => exact Or.inr (ih (nextNode mapping cur) m h)

/-- C4: every message emitted by the extractor lies on the path obtained
from the start node by repeatedly taking the first child (`childIds[0]`), so
content reachable only through a non-first child never appears; and the walk
stops at the first node whose child list is empty (emitting that node and
nothing further). -/
theorem extract_follows_first_child_only (fuel : Nat) (conv : ChatGPTConversation) :
    (∀ m ∈ (extractConversation fuel conv).messages,
        m.id ∈ firstChildPath conv.mapping fuel (findStart conv.mapping)) ∧
    (∀ cur : MappingNode, cur.children = [] → ∀ f : Nat,
        walkThread conv.mapping (f + 1) (some cur) = emitNode cur) := by
  constructor
  · intro m hm
    exact walk_mem_firstChildPath conv.mapping fuel (findStart conv.mapping) m hm
  · intro cur hc f
    simp only [walkThread, nextNode, hc, walkThread_none, List.append_nil]

/-- C4 witness: in `sampleConversation` the user node has two children; the
extracted primary-branch message `a1` is a member of the walk's output and
the theorem places its id on the first-child path. -/
theorem extract_follows_first_child_only_witness :
    (samplePrimaryMessage ∈ (extractConversation 10 sampleConversation).messages) ∧
    samplePrimaryMessage.id ∈
      firstChildPath sampleConversation.mapping 10 (findStart sampleConversation.mapping) :=
  have hmsgs : (extractConversation 10 sampleConversation).messages =
      [{ role := "user", content := "question", timestamp := 1, id := "u1" },
       samplePrimaryMessage] := by with_unfolding_all rfl
  have hmem : samplePrimaryMessage ∈ (extractConversation 10 sampleConversation).messages := by
    rw [hmsgs]; exact List.mem_cons_of_mem _ (List.mem_cons_self _ _)
  ⟨hmem, (extract_follows_first_child_only 10 sampleConversation).1
    samplePrimaryMessage hmem⟩

/-! ## Claims C5 and C7: the collision loop -/

lemma findUniquePathGo_first_free (vault : Vault) (basePath : String) :
    ∀ (n c k gas : Nat), c + n = k → k ≤ 99 → gas + c = MAX_RETRIES →
      (∀ i, c ≤ i → i < k →
        (vault.getAbstractFileByPath (candidatePath basePath i)).isSome = true) →
      (vault.getAbstractFileByPath (candidatePath basePath k)).isSome = false →
      findUniquePathGo vault basePath (candidatePath basePath c) (c + 1) gas =
        Except.ok (candidatePath basePath k) := by
  intro n
  induction n with
  | zero =>
    intro c k gas hck hk hgas _ hfree
    have hc : c = k := by omega
    subst hc
    cases gas with
    | zero => exact absurd hgas (by simp only [MAX_RETRIES]; omega)
    | succ g =>
      simp only [findUniquePathGo, hfree, Bool.false_eq_true, if_false]
  | succ m ih =>
    intro c k gas hck hk hgas hall hfree
    have hc : c < k := by omega
    have hgas99 : c ≤ 98 := by omega
    cases gas with
    | zero => exact absurd hgas (by simp only [MAX_RETRIES]; omega)
    | succ g =>
      have hcs := hall c le_rfl hc
      simp only [findUniquePathGo, hcs, if_true]
      have hbound : ¬ (c + 1 + 1 > MAX_RETRIES) := by
        simp only [MAX_RETRIES]; omega
      rw [if_neg hbound]
      have hnext : nextCandidate basePath (c + 1) = candidatePath basePath (c + 1) := rfl
      rw [hnext]
      exact ih (c + 1) k g (by omega) hk (by simp only [MAX_RETRIES] at *; omega)
        (fun i h1 h2 => hall i (by omega) h2) hfree

lemma findUniquePath_first_free (vault : Vault) (basePath : String) (k : Nat)
    (hk : k ≤ 99)
    (hall : ∀ i, i < k →
      (vault.getAbstractFileByPath (candidatePath basePath i)).isSome = true)
    (hfree : (vault.getAbstractFileByPath (candidatePath basePath k)).isSome = false) :
    findUniquePath vault basePath = Except.ok (candidatePath basePath k) :=
  findUniquePathGo_first_free vault basePath k 0 k MAX_RETRIES (by omega) hk
    (by omega) (fun i _ h2 => hall i h2) hfree

lemma findUniquePathGo_total (vault : Vault) (basePath : String) :
    ∀ (n c gas : Nat), c + n = 99 → gas + c = MAX_RETRIES →
      (∃ k, c ≤ k ∧ k ≤ 99 ∧
        findUniquePathGo vault basePath (candidatePath basePath c) (c + 1) gas =
          Except.ok (candidatePath basePath k)) ∨
      findUniquePathGo vault basePath (candidatePath basePath c) (c + 1) gas =
        Except.error tooManyDuplicatesError := by
  intro n
  induction n with
  | zero =>
    intro c gas hc hgas
    have hc' : c = 99 := by omega
    subst hc'
    cases gas with
    | zero => exact absurd hgas (by simp only [MAX_RETRIES]; omega)
    | succ g =>
      cases hex : (vault.getAbstractFileByPath (candidatePath basePath 99)).isSome with
      | true =>
        simp only [findUniquePathGo, hex, if_true]
        have hbound : 99 + 1 + 1 > MAX_RETRIES := by simp [MAX_RETRIES]
        rw [if_pos hbound]
        exact Or.inr rfl
      | false =>
        simp only [findUniquePathGo, hex, Bool.false_eq_true, if_false]
        exact Or.inl ⟨99, le_rfl, le_rfl, rfl⟩
  | succ m ih =>
    intro c gas hc hgas
    cases gas with
    | zero => exact absurd hgas (by simp only [MAX_RETRIES]; omega)
    | succ g =>
      cases hex : (vault.getAbstractFileByPath (candidatePath basePath c)).isSome with
      | true =>
        simp only [findUniquePathGo, hex, if_true]
        have hbound : ¬ (c + 1 + 1 > MAX_RETRIES) := by simp only [MAX_RETRIES]; omega
        rw [if_neg hbound]
        have hnext : nextCandidate basePath (c + 1) = candidatePath basePath (c + 1) := rfl
        rw [hnext]
        cases ih (c + 1) g (by omega) (by simp only [MAX_RETRIES] at *; omega) with
        | inl h =>
          obtain ⟨k, hk1, hk2, hk3⟩ := h
          exact Or.inl ⟨k, by omega, hk2, hk3⟩
        | inr h => exact Or.inr h
      | false =>
        simp only [findUniquePathGo, hex, Bool.false_eq_true, if_false]
        exact Or.inl ⟨c, le_rfl, by omega, rfl⟩

lemma findUniquePathGo_all_taken (vault : Vault) (basePath : String) :
    ∀ (n c gas : Nat), c + n = 99 → gas + c = MAX_RETRIES →
      (∀ i, c ≤ i → i ≤ 99 →
        (vault.getAbstractFileByPath (candidatePath basePath i)).isSome = true) →
      findUniquePathGo vault basePath (candidatePath basePath c) (c + 1) gas =
        Except.error tooManyDuplicatesError := by
  intro n
  induction n with
  | zero =>
    intro c gas hc hgas hall
    have hc' : c = 99 := by omega
    subst hc'
    cases gas with
    | zero => exact absurd hgas (by simp only [MAX_RETRIES]; omega)
    | succ g =>
      simp only [findUniquePathGo, hall 99 le_rfl le_rfl, if_true]
      have hbound : 99 + 1 + 1 > MAX_RETRIES := by simp [MAX_RETRIES]
      rw [if_pos hbound]
  | succ m ih =>
    intro c gas hc hgas hall
    cases gas with
    | zero => exact absurd hgas (by simp only [MAX_RETRIES]; omega)
    | succ g =>
      simp only [findUniquePathGo, hall c le_rfl (by omega), if_true]
      have hbound : ¬ (c + 1 + 1 > MAX_RETRIES) := by simp only [MAX_RETRIES]; omega
      rw [if_neg hbound]
      have hnext : nextCandidate basePath (c + 1) = candidatePath basePath (c + 1) := rfl
      rw [hnext]
      exact ih (c + 1) g (by omega) (by simp only [MAX_RETRIES] at *; omega)
        (fun i h1 h2 => hall i (by omega) h2)


/-- C5: every candidate of the collision loop is re-derived from the
original pre-loop candidate with an incrementing counter (`candidatePath`:
`name.ext`, `name (1).ext`, `name (2).ext`, …, never `name (1) (1).ext`),
the loop returns the first candidate the document store reports free; and
concretely, with `Multi Duplicate.md`, `Multi Duplicate (1).md` and
`Multi Duplicate (2).md` existing, allocating the title `Multi Duplicate`
yields `Multi Duplicate (3).md`. -/
theorem collisionLoop_candidate_sequence :
    (∀ (vault : Vault) (basePath : String) (k : Nat), k ≤ 99 →
      (∀ i, i < k →
        (vault.getAbstractFileByPath (candidatePath basePath i)).isSome = true) →
      (vault.getAbstractFileByPath (candidatePath basePath k)).isSome = false →
      findUniquePath vault basePath = Except.ok (candidatePath basePath k)) ∧
    findUniquePath
      (Vault.mk [("Multi Duplicate.md", folderData),
                 ("Multi Duplicate (1).md", folderData),
                 ("Multi Duplicate (2).md", folderData)] [] [])
      (sanitizeTitle "Multi Duplicate" ++ ".md") =
      Except.ok "Multi Duplicate (3).md" := by
  constructor
  · exact findUniquePath_first_free
  · have hbase : sanitizeTitle "Multi Duplicate" ++ ".md" = "Multi Duplicate.md" := by decide
    rw [hbase]
    have h := findUniquePath_first_free
      (Vault.mk [("Multi Duplicate.md", folderData),
                 ("Multi Duplicate (1).md", folderData),
                 ("Multi Duplicate (2).md", folderData)] [] [])
      "Multi Duplicate.md" 3 (by omega) (by decide) (by decide)
    rw [h]
    rfl

/-- C5 witness: the collision-sequence theorem applied to the concrete
three-duplicate directory. -/
theorem collisionLoop_candidate_sequence_witness :
    ((3 : Nat) ≤ 99 ∧
      (∀ i, i < 3 →
        ((Vault.mk [("Multi Duplicate.md", folderData),
                    ("Multi Duplicate (1).md", folderData),
                    ("Multi Duplicate (2).md", folderData)] []
            []).getAbstractFileByPath
          (candidatePath "Multi Duplicate.md" i)).isSome = true) ∧
      ((Vault.mk [("Multi Duplicate.md", folderData),
                  ("Multi Duplicate (1).md", folderData),
                  ("Multi Duplicate (2).md", folderData)] []
          []).getAbstractFileByPath
        (candidatePath "Multi Duplicate.md" 3)).isSome = false) ∧
    findUniquePath
      (Vault.mk [("Multi Duplicate.md", folderData),
                 ("Multi Duplicate (1).md", folderData),
                 ("Multi Duplicate (2).md", folderData)] [] [])
      "Multi Duplicate.md" = Except.ok (candidatePath "Multi Duplicate.md" 3) :=
  ⟨⟨by omega, by decide, by decide⟩,
    collisionLoop_candidate_sequence.1
      (Vault.mk [("Multi Duplicate.md", folderData),
                 ("Multi Duplicate (1).md", folderData),
                 ("Multi Duplicate (2).md", folderData)] [] [])
      "Multi Duplicate.md" 3 (by omega) (by decide) (by decide)⟩

/-- C7: the collision loop is bounded: for every vault and base path it
terminates with either the first free candidate (at index at most 99) or the
distinct "too many duplicate files" error; and when every candidate up to
the bound already exists, it fails with that error rather than looping. -/
theorem collisionLoop_bounded :
    (∀ (vault : Vault) (basePath : String),
      (∃ k, k ≤ 99 ∧
        findUniquePath vault basePath = Except.ok (candidatePath basePath k)) ∨
      findUniquePath vault basePath = Except.error tooManyDuplicatesError) ∧
    (∀ (vault : Vault) (basePath : String),
      (∀ i, i ≤ 99 →
        (vault.getAbstractFileByPath (candidatePath basePath i)).isSome = true) →
      findUniquePath vault basePath = Except.error tooManyDuplicatesError) := by
  constructor
  · intro vault basePath
    cases findUniquePathGo_total vault basePath 99 0 MAX_RETRIES (by omega) rfl with
    | inl h =>
      obtain ⟨k, _, hk2, hk3⟩ := h
      exact Or.inl ⟨k, hk2, hk3⟩
    | inr h => exact Or.inr h
  · intro vault basePath hall
    exact findUniquePathGo_all_taken vault basePath 99 0 MAX_RETRIES (by omega) rfl
      (fun i _ h2 => hall i h2)

/-- C7 witness: a vault holding all one hundred candidates `X`, `X (1)`, …,
`X (99)`; allocation fails with the "too many duplicate files" error. -/
theorem collisionLoop_bounded_witness :
    (∀ i, i ≤ 99 →
      ((Vault.mk ((List.range 100).map
          (fun i => (candidatePath "X" i, folderData))) [] []).getAbstractFileByPath
        (candidatePath "X" i)).isSome = true) ∧
    findUniquePath
      (Vault.mk ((List.range 100).map
        (fun i => (candidatePath "X" i, folderData))) [] []) "X" =
      Except.error tooManyDuplicatesError :=
  ⟨by decide,
    collisionLoop_bounded.2
      (Vault.mk ((List.range 100).map
        (fun i => (candidatePath "X" i, folderData))) [] []) "X" (by decide)⟩

/-! ## Claim C9: round trip of the state store -/

lemma saveConversationMetadata_ok (store : QAPairMetadataStore) (v : Vault) (now : Nat)
    (hc : METADATA_FILE_NAME ∉ v.createFailures)
    (hw : METADATA_FILE_NAME ∉ v.adapterWriteFailures) :
    (saveConversationMetadata store v now).1 = { store with lastUpdated := now } ∧
    (saveConversationMetadata store v now).2.2 = Except.ok () ∧
    objGet (saveConversationMetadata store v now).2.1.entries METADATA_FILE_NAME =
      some (FileData.json (encodeStore { store with lastUpdated := now })) ∧
    (saveConversationMetadata store v now).2.1.createFailures = v.createFailures ∧
    (saveConversationMetadata store v now).2.1.adapterWriteFailures =
      v.adapterWriteFailures := by
  unfold saveConversationMetadata
  simp only [Vault.adapterRead, Vault.adapterWrite, Vault.create]
  cases hmeta : objGet v.entries METADATA_FILE_NAME with
  | some c => simp [hmeta, hw, objGet_objSet_self]
  | none => simp [hmeta, hc, hw, objGet_append_of_none _ _ _ hmeta]

lemma updateQAPairState_ok (store : QAPairMetadataStore) (v : Vault) (pid : String)
    (st : QAPairState) (cid up rp : String) (now : Nat)
    (hc : METADATA_FILE_NAME ∉ v.createFailures)
    (hw : METADATA_FILE_NAME ∉ v.adapterWriteFailures) :
    (updateQAPairState store v pid st cid up rp now).1 =
      { qaPairs := objSet store.qaPairs pid (qaPairEntry pid st cid up rp now),
        lastUpdated := now } ∧
    (updateQAPairState store v pid st cid up rp now).2.2 = Except.ok () ∧
    objGet (updateQAPairState store v pid st cid up rp now).2.1.entries
        METADATA_FILE_NAME =
      some (FileData.json (encodeStore
        (updateQAPairState store v pid st cid up rp now).1)) ∧
    (updateQAPairState store v pid st cid up rp now).2.1.createFailures =
      v.createFailures ∧
    (updateQAPairState store v pid st cid up rp now).2.1.adapterWriteFailures =
      v.adapterWriteFailures := by
  obtain ⟨h1, h2, h3, h4, h5⟩ := saveConversationMetadata_ok
    { store with
        qaPairs := objSet store.qaPairs pid (qaPairEntry pid st cid up rp now) }
    v now hc hw
  simp only [updateQAPairState]
  exact ⟨h1, h2, by rw [h3, h1], h4, h5⟩

lemma loadConversationMetadata_encoded (v : Vault) (S : QAPairMetadataStore) (t : Nat)
    (h : objGet v.entries METADATA_FILE_NAME =
      some (FileData.json (encodeStore S))) :
    loadConversationMetadata v t = S := by
  unfold loadConversationMetadata Vault.adapterRead
  rw [h]
  have h1 : jsFieldTruthy (encodeStore S) "conversations" = false := by
    simp [jsFieldTruthy, encodeStore, Json.getField, objGet]
  have h2 : jsFieldTruthy (encodeStore S) "qaPairs" = true := by
    simp [jsFieldTruthy, encodeStore, Json.getField, objGet, Json.truthy]
  simp only [h1, h2, Bool.false_eq_true, if_false, if_true, decodeStore_encodeStore]

/-- C9: starting from a fresh (empty) store, two sequential successful
`updateQAPairState` calls for two different pair ids followed by a load
yield a store whose pairs map holds exactly those two entries, each with its
last-written state. -/
theorem store_round_trip_two_updates
    (vault : Vault) (p1 p2 : String) (s1 s2 : QAPairState)
    (c1 c2 up1 up2 rp1 rp2 : String) (t0 t1 t2 t3 : Nat)
    (st1 : QAPairMetadataStore) (v1 : Vault) (r1 : Except String Unit)
    (st2 : QAPairMetadataStore) (v2 : Vault) (r2 : Except String Unit)
    (hp : p1 ≠ p2)
    (hc : METADATA_FILE_NAME ∉ vault.createFailures)
    (hw : METADATA_FILE_NAME ∉ vault.adapterWriteFailures)
    (h1 : updateQAPairState (emptyStore t0) vault p1 s1 c1 up1 rp1 t1 = (st1, v1, r1))
    (h2 : updateQAPairState st1 v1 p2 s2 c2 up2 rp2 t2 = (st2, v2, r2)) :
    r1 = Except.ok () ∧ r2 = Except.ok () ∧
    (loadConversationMetadata v2 t3).qaPairs.map Prod.fst = [p1, p2] ∧
    (objGet (loadConversationMetadata v2 t3).qaPairs p1).map QAPairMetadata.state =
      some s1 ∧
    (objGet (loadConversationMetadata v2 t3).qaPairs p2).map QAPairMetadata.state =
      some s2 ∧
    ∀ q, q ≠ p1 → q ≠ p2 → objGet (loadConversationMetadata v2 t3).qaPairs q = none := by
  obtain ⟨a1, a2, a3, a4, a5⟩ :=
    updateQAPairState_ok (emptyStore t0) vault p1 s1 c1 up1 rp1 t1 hc hw
  rw [h1] at a1 a2 a3 a4 a5
  simp only at a1 a2 a3 a4 a5
  have hc1 : METADATA_FILE_NAME ∉ v1.createFailures := by rw [a4]; exact hc
  have hw1 : METADATA_FILE_NAME ∉ v1.adapterWriteFailures := by rw [a5]; exact hw
  obtain ⟨b1, b2, b3, b4, b5⟩ :=
    updateQAPairState_ok st1 v1 p2 s2 c2 up2 rp2 t2 hc1 hw1
  rw [h2] at b1 b2 b3 b4 b5
  simp only at b1 b2 b3 b4 b5
  -- the shape of the final in-memory store
  have hst1 : st1.qaPairs = [(p1, qaPairEntry p1 s1 c1 up1 rp1 t1)] := by
    rw [a1]; rfl
  have hst2 : st2.qaPairs =
      [(p1, qaPairEntry p1 s1 c1 up1 rp1 t1),
       (p2, qaPairEntry p2 s2 c2 up2 rp2 t2)] := by
    rw [b1]
    simp only [hst1]
    simp [objSet, hp]
  have hload : loadConversationMetadata v2 t3 = st2 :=
    loadConversationMetadata_encoded v2 st2 t3 b3
  refine ⟨a2, b2, ?_, ?_, ?_, ?_⟩
  · rw [hload, hst2]; rfl
  · rw [hload, hst2]; simp [objGet, qaPairEntry]
  · rw [hload, hst2]; simp [objGet, hp, qaPairEntry]
  · intro q hq1 hq2
    rw [hload, hst2]
    simp [objGet, Ne.symm hq1, Ne.symm hq2]

/-- C9 witness: the round trip at concrete inputs (two pair ids `p1`, `p2`,
states SAVED and IGNORED, a vault with no injected failures). -/
theorem store_round_trip_two_updates_witness :
    (("p1" : String) ≠ "p2" ∧
      METADATA_FILE_NAME ∉ (Vault.mk [] [] []).createFailures ∧
      METADATA_FILE_NAME ∉ (Vault.mk [] [] []).adapterWriteFailures) ∧
    ((updateQAPairState (emptyStore 0) (Vault.mk [] [] []) "p1"
        QAPairState.SAVED "c1" "q1" "a1" 1).2.2 = Except.ok () ∧
      (updateQAPairState
        (updateQAPairState (emptyStore 0) (Vault.mk [] [] []) "p1"
          QAPairState.SAVED "c1" "q1" "a1" 1).1
        (updateQAPairState (emptyStore 0) (Vault.mk [] [] []) "p1"
          QAPairState.SAVED "c1" "q1" "a1" 1).2.1 "p2"
        QAPairState.IGNORED "c1" "q2" "a2" 2).2.2 = Except.ok () ∧
      (loadConversationMetadata
        (updateQAPairState
          (updateQAPairState (emptyStore 0) (Vault.mk [] [] []) "p1"
            QAPairState.SAVED "c1" "q1" "a1" 1).1
          (updateQAPairState (emptyStore 0) (Vault.mk [] [] []) "p1"
            QAPairState.SAVED "c1" "q1" "a1" 1).2.1 "p2"
          QAPairState.IGNORED "c1" "q2" "a2" 2).2.1 3).qaPairs.map Prod.fst =
        ["p1", "p2"] ∧
      (objGet (loadConversationMetadata
        (updateQAPairState
          (updateQAPairState (emptyStore 0) (Vault.mk [] [] []) "p1"
            QAPairState.SAVED "c1" "q1" "a1" 1).1
          (updateQAPairState (emptyStore 0) (Vault.mk [] [] []) "p1"
            QAPairState.SAVED "c1" "q1" "a1" 1).2.1 "p2"
          QAPairState.IGNORED "c1" "q2" "a2" 2).2.1 3).qaPairs "p1").map
          QAPairMetadata.state = some QAPairState.SAVED ∧
      (objGet (loadConversationMetadata
        (updateQAPairState
          (updateQAPairState (emptyStore 0) (Vault.mk [] [] []) "p1"
            QAPairState.SAVED "c1" "q1" "a1" 1).1
          (updateQAPairState (emptyStore 0) (Vault.mk [] [] []) "p1"
            QAPairState.SAVED "c1" "q1" "a1" 1).2.1 "p2"
          QAPairState.IGNORED "c1" "q2" "a2" 2).2.1 3).qaPairs "p2").map
          QAPairMetadata.state = some QAPairState.IGNORED ∧
      ∀ q, q ≠ "p1" → q ≠ "p2" →
        objGet (loadConversationMetadata
          (updateQAPairState
            (updateQAPairState (emptyStore 0) (Vault.mk [] [] []) "p1"
              QAPairState.SAVED "c1" "q1" "a1" 1).1
            (updateQAPairState (emptyStore 0) (Vault.mk [] [] []) "p1"
              QAPairState.SAVED "c1" "q1" "a1" 1).2.1 "p2"
            QAPairState.IGNORED "c1" "q2" "a2" 2).2.1 3).qaPairs q = none) :=
  ⟨⟨by decide, by decide, by decide⟩,
    store_round_trip_two_updates (Vault.mk [] [] []) "p1" "p2"
      QAPairState.SAVED QAPairState.IGNORED "c1" "c1" "q1" "q2" "a1" "a2" 0 1 2 3
      _ _ _ _ _ _ (by decide) (by decide) (by decide) rfl rfl⟩

/-! ## Claim C10: the re-entrancy guard of `saveNote` -/

lemma saveNoteFinish_releases (modal : SaveNoteModalState) (v : Vault)
    (store : QAPairMetadataStore) (p : String) (now : Nat) :
    (saveNoteFinish modal v store p now).modal.saveInProgress = false := by
  unfold saveNoteFinish
  split
  · split
    · rfl
    · rfl
  · rfl

/-- C10: a `saveNote` call that begins while a previous save on the same
modal has not completed fails with "Save operation already in progress" and
changes nothing (same modal, vault, store, no created file); a call that
does run releases the guard on completion, whether it succeeds or fails. -/
theorem saveNote_reentrancy_guard (modal : SaveNoteModalState) (vault : Vault)
    (store : QAPairMetadataStore) (settings : ChatGPTSettings) (now : Nat)
    (title folder tags : String) :
    (modal.saveInProgress = true →
      saveNote modal vault store settings now title folder tags =
        ⟨modal, vault, store, none,
          Except.error "Save operation already in progress"⟩) ∧
    (modal.saveInProgress = false →
      (saveNote modal vault store settings now title folder tags).modal.saveInProgress =
        false) := by
  constructor
  · intro h
    unfold saveNote
    rw [if_pos h]
  · intro h
    unfold saveNote
    rw [if_neg (by simp [h])]
    dsimp only []
    split
    · rfl
    · split
      · exact saveNoteFinish_releases _ _ _ _ _
      · split
        · exact saveNoteFinish_releases _ _ _ _ _
        · rfl

/-- C10 witness: rejecting a save while `sampleBusyModal` has one in flight
leaves everything unchanged; and the guard holds at the concrete input. -/
theorem saveNote_reentrancy_guard_witness :
    sampleBusyModal.saveInProgress = true ∧
    saveNote sampleBusyModal (Vault.mk [] [] []) (emptyStore 0) sampleSettings 7
        "T" "" "" =
      ⟨sampleBusyModal, Vault.mk [] [] [], emptyStore 0, none,
        Except.error "Save operation already in progress"⟩ :=
  ⟨rfl,
    (saveNote_reentrancy_guard sampleBusyModal (Vault.mk [] [] []) (emptyStore 0)
      sampleSettings 7 "T" "" "").1 rfl⟩

/-! ## Claim C8: behaviour on a failing create (lost check-then-act race) -/

lemma saveNoteFinish_ok (modal : SaveNoteModalState) (v : Vault)
    (store : QAPairMetadataStore) (p : String) (now : Nat) :
    (saveNoteFinish modal v store p now).outcome = Except.ok () ∧
    (saveNoteFinish modal v store p now).createdFilePath = some p := by
  unfold saveNoteFinish
  split
  · split
    · exact ⟨rfl, rfl⟩
    · exact ⟨rfl, rfl⟩
  · exact ⟨rfl, rfl⟩

/-- C8 counterexample: the claim says a failing create propagates the
failure to the caller, but when the create of the allocated path fails and
the timestamp-suffixed fallback create succeeds, the save SUCCEEDS (at the
fallback path) — here concretely with an injected create failure at
`Race.md` and `now = 777`. -/
theorem saveNote_create_failure_not_propagated_cx :
    (saveNote sampleIdleModal (Vault.mk [] ["Race.md"] []) (emptyStore 0)
        sampleSettings 777 "Race" "" "").outcome = Except.ok () ∧
    (saveNote sampleIdleModal (Vault.mk [] ["Race.md"] []) (emptyStore 0)
        sampleSettings 777 "Race" "" "").createdFilePath = some "Race-777.md" := by
  constructor
  · with_unfolding_all rfl
  · with_unfolding_all rfl

/-- C8 (amended): when the create of the allocated path fails, `saveNote`
does not re-run the collision-loop allocation; it retries exactly once at
the timestamp-suffixed fallback path derived from the original candidate
(`dir ++ name ++ "-" ++ now ++ ext`); if that fallback create also fails the
ORIGINAL create error propagates to the caller (vault and store unchanged,
no file recorded as created), and if the fallback create succeeds the save
succeeds with the fallback path. -/
theorem saveNote_create_failure_timestamp_fallback
    (modal : SaveNoteModalState) (vault : Vault) (store : QAPairMetadataStore)
    (settings : ChatGPTSettings) (now : Nat) (title folder tags : String)
    (vault1 : Vault) (filePath finalPath content e1 : String)
    (hidle : modal.saveInProgress = false)
    (hvault1 : vault1 =
      (if folder.trim ≠ "" ∧ (vault.getAbstractFileByPath folder.trim).isNone then
        vault.createFolder folder.trim
      else vault))
    (hfile : filePath =
      (if folder.trim ≠ "" then folder.trim ++ "/" ++ sanitizeTitle title ++ ".md"
      else sanitizeTitle title ++ ".md"))
    (hcontent : content =
      generateNoteContent settings modal.conversation modal.message title tags)
    (hfind : findUniquePath vault1 filePath = Except.ok finalPath)
    (hfail : vault1.create finalPath (FileData.notJson content) = Except.error e1) :
    (∀ e2, vault1.create (timestampFallbackPath filePath now)
        (FileData.notJson content) = Except.error e2 →
      saveNote modal vault store settings now title folder tags =
        ⟨{ modal with saveInProgress := false }, vault1, store, none,
          Except.error e1⟩) ∧
    (∀ v2, vault1.create (timestampFallbackPath filePath now)
        (FileData.notJson content) = Except.ok v2 →
      (saveNote modal vault store settings now title folder tags).outcome =
        Except.ok () ∧
      (saveNote modal vault store settings now title folder tags).createdFilePath =
        some (timestampFallbackPath filePath now)) := by
  subst hvault1 hfile hcontent
  constructor
  · intro e2 hx
    unfold saveNote
    rw [if_neg (by simp [hidle])]
    simp only [hfind, hfail, hx]
  · intro v2 hx
    unfold saveNote
    rw [if_neg (by simp [hidle])]
    simp only [hfind, hfail, hx]
    exact saveNoteFinish_ok _ _ _ _ _

/-- C8 witness: concrete lost race — create of the allocated `T.md` fails by
injection, the timestamp fallback `T-123.md` succeeds, the save succeeds. -/
theorem saveNote_create_failure_timestamp_fallback_witness :
    ((Vault.mk [] ["T.md"] []).create "T.md"
        (FileData.notJson (generateNoteContent sampleSettings
          sampleIdleModal.conversation sampleIdleModal.message "T" "")) =
      Except.error "File already exists: T.md") ∧
    ((saveNote sampleIdleModal (Vault.mk [] ["T.md"] []) (emptyStore 0)
        sampleSettings 123 "T" "" "").outcome = Except.ok () ∧
      (saveNote sampleIdleModal (Vault.mk [] ["T.md"] []) (emptyStore 0)
        sampleSettings 123 "T" "" "").createdFilePath =
        some (timestampFallbackPath "T.md" 123)) ∧
    timestampFallbackPath "T.md" 123 = "T-123.md" :=
  ⟨by with_unfolding_all rfl,
    (saveNote_create_failure_timestamp_fallback sampleIdleModal
      (Vault.mk [] ["T.md"] []) (emptyStore 0) sampleSettings 123 "T" "" ""
      (Vault.mk [] ["T.md"] []) "T.md" "T.md"
      (generateNoteContent sampleSettings sampleIdleModal.conversation
        sampleIdleModal.message "T" "")
      "File already exists: T.md" rfl (by with_unfolding_all rfl)
      (by with_unfolding_all rfl) rfl (by with_unfolding_all rfl)
      (by with_unfolding_all rfl)).2
      (Vault.mk [("T-123.md",
        FileData.notJson (generateNoteContent sampleSettings
          sampleIdleModal.conversation sampleIdleModal.message "T" ""))]
        ["T.md"] [])
      (by with_unfolding_all rfl),
    by with_unfolding_all rfl⟩

end ChatGPTPlugin
